import Mathlib

/-!
Verification of the Verba desktop-shell backend launcher
(`src/src-tauri/src/main.rs`) against its specification.

The launcher logic is embedded shallowly:

* a filesystem path (`PathBuf`) is a list of components; `PathBuf::join`
  appends a component;
* the ambient platform state is an `Env` record carrying the optional
  resource directory, the operating system's reaction to a spawn request
  (`spawn_ok`), and which files are present on disk (`file_exists` — the
  source never consults it, which matters for one of the claims);
* each `Command::spawn` attempt is recorded in an explicit trace
  (`SpawnRecord`), so properties about which candidates were attempted,
  in which order, and with which stdio configuration become statements
  about the trace returned alongside the `Result`.
-/

namespace Verba

/-- A filesystem path, as its list of components.  `PathBuf::from "python3"`
is the one-component path `["python3"]`. -/
abbrev Path := List String

/-- `PathBuf::join`: append one component. -/
def pathJoin (p : Path) (c : String) : Path := p ++ [c]

/-- Rendering of a path by Rust's `{:?}` (Debug) formatting, as used in the
success message of `start_backend`. -/
def pathRepr (p : Path) : String := "\"" ++ String.intercalate "/" p ++ "\""

/-- One `Command::spawn` attempt as issued by `start_backend`: the program
invoked, its argument list, whether stdout/stderr were configured as
`Stdio::piped()`, and whether the operating system accepted the request. -/
structure SpawnRecord where
  program : Path
  args : List Path
  stdout_piped : Bool
  stderr_piped : Bool
  ok : Bool
deriving DecidableEq, Repr

/-- The ambient platform state `start_backend` runs against:
`resource_dir` is the result of `tauri::utils::platform::resource_dir`
(`none` models lookup failure); `spawn_ok prog arg` tells whether the OS
accepts spawning `prog` with single argument `arg`; `file_exists` tells
which paths are present on disk (the source never reads it). -/
structure Env where
  resource_dir : Option Path
  spawn_ok : Path → Path → Bool
  file_exists : Path → Bool

/-- `resource_dir.join("backend").join("python").join("python")` — the
bundled interpreter path computed by `start_backend`. -/
def python_path (rd : Path) : Path :=
  pathJoin (pathJoin (pathJoin rd "backend") "python") "python"

/-- `resource_dir.join("backend").join("main.py")` — the backend entry
point computed by `start_backend`. -/
def backend_path (rd : Path) : Path :=
  pathJoin (pathJoin rd "backend") "main.py"

/-- The `python_executables` vector built inside `start_backend`:
bundled path first, then `"python3"`, then `"python"`. -/
def python_executables (rd : Path) : List Path :=
  [python_path rd, ["python3"], ["python"]]

/-- The `for python_exe in python_executables` loop of `start_backend`:
try each candidate in order; on the first accepted spawn return the
success message naming the interpreter, on exhaustion return the error
string.  The second component is the trace of spawn attempts made. -/
def try_candidates (so : Path → Path → Bool) (bp : Path) :
    List Path → List SpawnRecord → Except String String × List SpawnRecord
  | [], trace =>
    (Except.error "Failed to start backend with any Python executable", trace)
  | exe :: rest, trace =>
    if so exe bp then
      (Except.ok ("Backend started successfully with " ++ pathRepr exe),
       trace ++ [⟨exe, [bp], true, true, true⟩])
    else
      try_candidates so bp rest (trace ++ [⟨exe, [bp], true, true, false⟩])

/-- `start_backend`: resolve the resource directory (failing immediately if
the lookup fails), compute the bundled-interpreter and backend-entry paths,
and run the candidate loop.  Returns the Rust `Result<String, String>`
together with the trace of spawn attempts. -/
def start_backend (env : Env) : Except String String × List SpawnRecord :=
  match env.resource_dir with
  | none => (Except.error "Failed to get resource directory", [])
  | some rd => try_candidates env.spawn_ok (backend_path rd) (python_executables rd) []

/-- `check_microphone_permission`: the body is literally `Ok(true)`. -/
def check_microphone_permission : Except String Bool :=
  Except.ok true

/-- `get_app_version`: returns `env!("CARGO_PKG_VERSION")`, the package
version string embedded at build time.  The embedding takes that
build-time string as a parameter and returns it unchanged. -/
def get_app_version (cargo_pkg_version : String) : String :=
  cargo_pkg_version

/-- What the `setup` closure in `main` does, as an explicit record:
how many async-runtime tasks it spawned, the launcher calls those tasks
perform (with their discarded results), the diagnostics it emits, and the
value it returns to the Tauri builder. -/
structure StartupTrace where
  async_tasks_spawned : Nat
  launcher_calls : List (Except String String × List SpawnRecord)
  diagnostics : List String
  setup_result : Except String Unit
deriving Repr

/-- The `setup` closure of `main`: it calls `tauri::async_runtime::spawn`
once, on a task whose body is `let _ = start_backend();` — the launch
result is bound to `_` and dropped, nothing is logged or surfaced — and
then returns `Ok(())` unconditionally. -/
def setup (env : Env) : StartupTrace :=
  { async_tasks_spawned := 1
    launcher_calls := [start_backend env]
    diagnostics := []
    setup_result := Except.ok () }

/-- Concrete platform state in which the resource-directory lookup fails. -/
def envNoResource : Env :=
  { resource_dir := none
    spawn_ok := fun _ _ => false
    file_exists := fun _ => false }

/-- Concrete platform state: resource directory resolves, no file present,
every spawn request refused by the OS. -/
def envAllFail : Env :=
  { resource_dir := some ["/res"]
    spawn_ok := fun _ _ => false
    file_exists := fun _ => false }

/-- Same as `envAllFail` except every file is present on disk. -/
def envAllFailPresent : Env :=
  { resource_dir := some ["/res"]
    spawn_ok := fun _ _ => false
    file_exists := fun _ => true }

/-- Concrete platform state in which every spawn request is accepted. -/
def envFirstOk : Env :=
  { resource_dir := some ["/res"]
    spawn_ok := fun _ _ => true
    file_exists := fun _ => false }

/-- Concrete platform state in which only the bare `python` candidate
spawns successfully. -/
def envLastOnly : Env :=
  { resource_dir := some ["/res"]
    spawn_ok := fun p _ => p == ["python"]
    file_exists := fun _ => false }

theorem try_candidates_trace_len (so : Path → Path → Bool) (bp : Path) :
    ∀ (cands : List Path) (trace : List SpawnRecord),
      (try_candidates so bp cands trace).2.length ≤ trace.length + cands.length := by
  intro cands
  induction cands with
  | nil => intro trace; simp [try_candidates]
  | cons exe rest ih =>
    intro trace
    by_cases h : so exe bp = true
    · simp [try_candidates, h]
    · have := ih (trace ++ [⟨exe, [bp], true, true, false⟩])
      simp only [try_candidates, h, if_neg, Bool.false_eq_true, if_false]
      simp at this ⊢
      omega

theorem try_candidates_result_cases (so : Path → Path → Bool) (bp : Path) :
    ∀ (cands : List Path) (trace : List SpawnRecord),
      (∃ m, (try_candidates so bp cands trace).1 = Except.ok m) ∨
        (try_candidates so bp cands trace).1 =
          Except.error "Failed to start backend with any Python executable" := by
  intro cands
  induction cands with
  | nil => intro trace; right; rfl
  | cons exe rest ih =>
    intro trace
    by_cases h : so exe bp = true
    · left
      exact ⟨"Backend started successfully with " ++ pathRepr exe, by simp [try_candidates, h]⟩
    · simpa [try_candidates, h] using ih (trace ++ [⟨exe, [bp], true, true, false⟩])

theorem try_candidates_trace_shape (so : Path → Path → Bool) (bp : Path) :
    ∀ (cands : List Path) (trace : List SpawnRecord),
      (∀ r ∈ trace, r.args = [bp] ∧ r.stdout_piped = true ∧ r.stderr_piped = true) →
      ∀ r ∈ (try_candidates so bp cands trace).2,
        r.args = [bp] ∧ r.stdout_piped = true ∧ r.stderr_piped = true := by
  intro cands
  induction cands with
  | nil => intro trace htr; simpa [try_candidates] using htr
  | cons exe rest ih =>
    intro trace htr
    by_cases h : so exe bp = true
    · intro r hr
      simp only [try_candidates, h, if_true, List.mem_append, List.mem_singleton] at hr
      rcases hr with hr | hr
      · exact htr r hr
      · subst hr; exact ⟨rfl, rfl, rfl⟩
    · simp only [try_candidates, h, Bool.false_eq_true, if_false]
      refine ih (trace ++ [⟨exe, [bp], true, true, false⟩]) ?_
      intro r hr
      rcases List.mem_append.mp hr with hr | hr
      · exact htr r hr
      · simp at hr; subst hr; exact ⟨rfl, rfl, rfl⟩

theorem start_backend_some (env : Env) (rd : Path) (h : env.resource_dir = some rd) :
    start_backend env =
      try_candidates env.spawn_ok (backend_path rd) (python_executables rd) [] := by
  simp [start_backend, h]

/-- Claim C1: when the resource directory resolves (so at least one spawn
attempt is made), a failure result entails that every one of the three
candidates was attempted, in declared order, and every spawn was refused;
and when only the last candidate (`"python"`) succeeds, the two earlier
candidates were each attempted exactly once, in declared order, before
the successful one. -/
theorem start_backend_fails_only_after_all_candidates (env : Env) (rd : Path)
    (h : env.resource_dir = some rd) :
    (∀ e, (start_backend env).1 = Except.error e →
      env.spawn_ok (python_path rd) (backend_path rd) = false ∧
      env.spawn_ok ["python3"] (backend_path rd) = false ∧
      env.spawn_ok ["python"] (backend_path rd) = false ∧
      (start_backend env).2 =
        [⟨python_path rd, [backend_path rd], true, true, false⟩,
         ⟨["python3"], [backend_path rd], true, true, false⟩,
         ⟨["python"], [backend_path rd], true, true, false⟩]) ∧
    (env.spawn_ok (python_path rd) (backend_path rd) = false →
      env.spawn_ok ["python3"] (backend_path rd) = false →
      env.spawn_ok ["python"] (backend_path rd) = true →
      (start_backend env).2 =
        [⟨python_path rd, [backend_path rd], true, true, false⟩,
         ⟨["python3"], [backend_path rd], true, true, false⟩,
         ⟨["python"], [backend_path rd], true, true, true⟩] ∧
      (start_backend env).1 =
        Except.ok ("Backend started successfully with " ++ pathRepr ["python"])) := by
  rw [start_backend_some env rd h]
  rcases Bool.eq_false_or_eq_true (env.spawn_ok (python_path rd) (backend_path rd))
    with h1 | h1
  · constructor
    · intro e he
      simp [try_candidates, python_executables, h1] at he
    · intro hf _ _
      simp [h1] at hf
  · rcases Bool.eq_false_or_eq_true (env.spawn_ok ["python3"] (backend_path rd))
      with h2 | h2
    · constructor
      · intro e he
        simp [try_candidates, python_executables, h1, h2] at he
      · intro _ hf _
        simp [h2] at hf
    · rcases Bool.eq_false_or_eq_true (env.spawn_ok ["python"] (backend_path rd))
        with h3 | h3
      · constructor
        · intro e he
          simp [try_candidates, python_executables, h1, h2, h3] at he
        · intro _ _ _
          constructor
          · simp [try_candidates, python_executables, h1, h2, h3]
          · simp [try_candidates, python_executables, h1, h2, h3]
      · constructor
        · intro e _
          exact ⟨h1, h2, h3, by simp [try_candidates, python_executables, h1, h2, h3]⟩
        · intro _ _ hf
          simp [h3] at hf

theorem start_backend_fails_only_after_all_candidates_witness :
    (start_backend envAllFail).2 =
      [⟨python_path ["/res"], [backend_path ["/res"]], true, true, false⟩,
       ⟨["python3"], [backend_path ["/res"]], true, true, false⟩,
       ⟨["python"], [backend_path ["/res"]], true, true, false⟩] ∧
    (start_backend envLastOnly).1 =
      Except.ok ("Backend started successfully with " ++ pathRepr ["python"]) := by
  constructor
  · exact ((start_backend_fails_only_after_all_candidates envAllFail ["/res"] rfl).1
      "Failed to start backend with any Python executable" rfl).2.2.2
  · exact ((start_backend_fails_only_after_all_candidates envLastOnly ["/res"] rfl).2
      (by decide) (by decide) (by decide)).2

/-- Claim C2: when the resource directory resolves and some candidate
spawns without error, `start_backend` returns success on the first such
candidate with a message naming that interpreter, no later candidate is
attempted (the trace stops at the successful attempt), and at most one
spawn attempt in the trace was accepted by the OS — at most one backend
process is started per call. -/
theorem start_backend_first_success (env : Env) (rd : Path)
    (h : env.resource_dir = some rd) :
    (env.spawn_ok (python_path rd) (backend_path rd) = true →
      start_backend env =
        (Except.ok ("Backend started successfully with " ++ pathRepr (python_path rd)),
         [⟨python_path rd, [backend_path rd], true, true, true⟩])) ∧
    (env.spawn_ok (python_path rd) (backend_path rd) = false →
      env.spawn_ok ["python3"] (backend_path rd) = true →
      start_backend env =
        (Except.ok ("Backend started successfully with " ++ pathRepr ["python3"]),
         [⟨python_path rd, [backend_path rd], true, true, false⟩,
          ⟨["python3"], [backend_path rd], true, true, true⟩])) ∧
    (env.spawn_ok (python_path rd) (backend_path rd) = false →
      env.spawn_ok ["python3"] (backend_path rd) = false →
      env.spawn_ok ["python"] (backend_path rd) = true →
      start_backend env =
        (Except.ok ("Backend started successfully with " ++ pathRepr ["python"]),
         [⟨python_path rd, [backend_path rd], true, true, false⟩,
          ⟨["python3"], [backend_path rd], true, true, false⟩,
          ⟨["python"], [backend_path rd], true, true, true⟩])) ∧
    List.countP (fun r => r.ok) (start_backend env).2 ≤ 1 := by
  rw [start_backend_some env rd h]
  refine ⟨?_, ?_, ?_, ?_⟩
  · intro h1
    simp [try_candidates, python_executables, h1]
  · intro h1 h2
    simp [try_candidates, python_executables, h1, h2]
  · intro h1 h2 h3
    simp [try_candidates, python_executables, h1, h2, h3]
  · cases h1 : env.spawn_ok (python_path rd) (backend_path rd) with
    | true => simp [try_candidates, python_executables, h1, List.countP_cons]
    | false =>
      cases h2 : env.spawn_ok ["python3"] (backend_path rd) with
      | true => simp [try_candidates, python_executables, h1, h2, List.countP_cons]
      | false =>
        cases h3 : env.spawn_ok ["python"] (backend_path rd) with
        | true => simp [try_candidates, python_executables, h1, h2, h3, List.countP_cons]
        | false => simp [try_candidates, python_executables, h1, h2, h3, List.countP_cons]

theorem start_backend_first_success_witness :
    start_backend envFirstOk =
      (Except.ok ("Backend started successfully with " ++ pathRepr (python_path ["/res"])),
       [⟨python_path ["/res"], [backend_path ["/res"]], true, true, true⟩]) ∧
    List.countP (fun r => r.ok) (start_backend envFirstOk).2 ≤ 1 := by
  constructor
  · exact (start_backend_first_success envFirstOk ["/res"] rfl).1 rfl
  · exact (start_backend_first_success envFirstOk ["/res"] rfl).2.2.2

/-- Claim C4 (counterexample): in a platform state where no file is
present on disk — in particular the bundled interpreter does not exist
under the resource directory — the bundled interpreter path is
nevertheless the first candidate attempted: the source builds the
candidate list unconditionally, with no presence check. -/
theorem bundled_candidate_attempted_when_absent_cex :
    envAllFail.file_exists (python_path ["/res"]) = false ∧
    (start_backend envAllFail).2.map (fun r => r.program) =
      [python_path ["/res"], ["python3"], ["python"]] :=
  ⟨rfl, rfl⟩

/-- Claim C4 (amended): for every resource directory the candidate list
is the bundled interpreter path — included unconditionally, whether or
not the bundled interpreter is present — followed by `"python3"` then
`"python"`; the list is rebuilt from the resource directory on every call
rather than persisted, and the whole behaviour of `start_backend` depends
only on the resource directory and the OS spawn behaviour, never on
which files are present. -/
theorem candidate_list_fixed (env env2 : Env)
    (h1 : env.resource_dir = env2.resource_dir)
    (h2 : env.spawn_ok = env2.spawn_ok) :
    (∀ rd : Path, python_executables rd = [python_path rd, ["python3"], ["python"]]) ∧
    start_backend env = start_backend env2 := by
  refine ⟨fun _ => rfl, ?_⟩
  unfold start_backend
  rw [h1, h2]

theorem candidate_list_fixed_witness :
    python_executables ["/res"] = [python_path ["/res"], ["python3"], ["python"]] ∧
    start_backend envAllFail = start_backend envAllFailPresent :=
  ⟨(candidate_list_fixed envAllFail envAllFailPresent rfl rfl).1 ["/res"],
   (candidate_list_fixed envAllFail envAllFailPresent rfl rfl).2⟩

/-- Claim C5: when the resource directory resolves, the backend entry
point is `resource_dir/backend/main.py`, and every spawn attempt in the
trace invokes its candidate with that path as sole argument, with stdout
and stderr configured as piped (and the model contains no read of either
stream). -/
theorem start_backend_spawns_backend_entry (env : Env) (rd : Path)
    (h : env.resource_dir = some rd) :
    backend_path rd = pathJoin (pathJoin rd "backend") "main.py" ∧
    ∀ r ∈ (start_backend env).2,
      r.args = [backend_path rd] ∧ r.stdout_piped = true ∧ r.stderr_piped = true := by
  refine ⟨rfl, ?_⟩
  rw [start_backend_some env rd h]
  exact try_candidates_trace_shape env.spawn_ok (backend_path rd)
    (python_executables rd) [] (by simp)

theorem start_backend_spawns_backend_entry_witness :
    ((start_backend envAllFail).2.all fun r =>
      (r.args == [backend_path ["/res"]]) && r.stdout_piped && r.stderr_piped) = true := by
  rw [List.all_eq_true]
  intro r hr
  rcases (start_backend_spawns_backend_entry envAllFail ["/res"] rfl).2 r hr with ⟨h1, h2, h3⟩
  simp [h1, h2, h3]

/-- Claim C3 (counterexample): with the resource-directory lookup failing,
`start_backend` returns the error string `"Failed to get resource
directory"`, which is not the string `"resource directory unavailable"`
named by the claim. -/
theorem start_backend_no_resource_message_cex :
    start_backend envNoResource =
      (Except.error "Failed to get resource directory", []) ∧
    ("Failed to get resource directory" == "resource directory unavailable") = false :=
  ⟨rfl, by decide⟩

/-- Claim C3 (amended): when the platform's resource-directory lookup
fails, `start_backend` fails immediately — the spawn-attempt trace is
empty — with the failure message `"Failed to get resource directory"`,
a message mentioning the resource directory. -/
theorem start_backend_no_resource_fails_immediately (env : Env)
    (h : env.resource_dir = none) :
    start_backend env = (Except.error "Failed to get resource directory", []) := by
  simp [start_backend, h]

theorem start_backend_no_resource_fails_immediately_witness :
    envNoResource.resource_dir = none ∧
    start_backend envNoResource =
      (Except.error "Failed to get resource directory", []) :=
  ⟨rfl, start_backend_no_resource_fails_immediately envNoResource rfl⟩

/-- Claim C8: at startup the `setup` closure spawns exactly one
asynchronous task, that task makes exactly one launcher call whose result
is discarded, no diagnostic is produced, and `setup` returns `Ok(())` —
the same value whatever the launch outcome in any platform state. -/
theorem setup_launches_once_and_discards_result (env : Env) :
    (setup env).async_tasks_spawned = 1 ∧
    (setup env).launcher_calls.length = 1 ∧
    (setup env).diagnostics = [] ∧
    (setup env).setup_result = Except.ok () ∧
    ∀ env2 : Env, (setup env).setup_result = (setup env2).setup_result :=
  ⟨rfl, rfl, rfl, rfl, fun _ => rfl⟩

/-- Claim C9: `start_backend` always terminates with a definite result:
the candidate list has fixed length three, so every call makes at most
three spawn attempts and returns either a success or one of the two
failure messages. -/
theorem start_backend_terminates (env : Env) :
    (∀ rd : Path, (python_executables rd).length = 3) ∧
    (start_backend env).2.length ≤ 3 ∧
    ((∃ m, (start_backend env).1 = Except.ok m) ∨
      (start_backend env).1 = Except.error "Failed to get resource directory" ∨
      (start_backend env).1 =
        Except.error "Failed to start backend with any Python executable") := by
  refine ⟨fun _ => rfl, ?_, ?_⟩
  · unfold start_backend
    cases h : env.resource_dir with
    | none => simp
    | some rd =>
      simpa using
        try_candidates_trace_len env.spawn_ok (backend_path rd) (python_executables rd) []
  · unfold start_backend
    cases h : env.resource_dir with
    | none => right; left; rfl
    | some rd =>
      rcases try_candidates_result_cases env.spawn_ok (backend_path rd)
          (python_executables rd) [] with hc | hc
      · exact Or.inl hc
      · exact Or.inr (Or.inr hc)

/-- Claim C6: `check_microphone_permission` reports permission granted
unconditionally — it is the constant `Ok(true)`, a pure value; no platform
permission API is invoked and no side effect is performed. -/
theorem check_microphone_permission_always_true :
    check_microphone_permission = Except.ok true := rfl

/-- Claim C7: `get_app_version` returns the build-time-embedded version
string unchanged for every build, with no network or filesystem access
(it is a pure function of the embedded constant). -/
theorem get_app_version_returns_build_version :
    ∀ v : String, get_app_version v = v := fun _ => rfl

/-- Claim C10: at the command boundary `check_microphone_permission` is
declared `Result<bool, String>` (here `Except String Bool`), not a bare
`bool`; its result is always `Ok(true)`, so the `String` error branch is
never produced — every call's result lies in the `ok` branch. -/
theorem check_microphone_permission_ok_branch :
    check_microphone_permission = Except.ok true ∧
    ∃ b : Bool, check_microphone_permission = Except.ok b :=
  ⟨rfl, true, rfl⟩

end Verba
